import Mathlib

/-!
Shallow embedding of the Users-API core (NestJS/TypeScript) for verification.

Source layout:
- `UsersService` (listAllUsers, deleteUser, updateUser, getProfile, loginUser,
  registerUser) from src/src/users/interfaces/jwt-payload.interface.ts
  (the file also holds the JwtPayload interface and UsersModule).
- `AuthGuard.canActivate` from src/src/users/dto/register.dto.ts.
- `UsersController` (logout, routes with UseGuards) from src/unnamed/part_000.
- The Prisma record store, bcrypt, the JWT library, `setTokens`
  (src/common/utils/set-tokens) and `LogNotifyHelper`
  (src/common/utils/log-notify.helper) are external collaborators or files not
  present under src/; the missing ones are modelled from the spec and marked so.

Effects are made explicit: each service method returns its result, the record
store it leaves behind, and a chronological trace of audit/store events.
-/

namespace UsersAPI

/-- Prisma user record as stored: id, email, hashed password, optional names. -/
structure User where
  id : String
  email : String
  password : String
  first_name : Option String
  last_name : Option String
  deriving DecidableEq

/-- JwtPayload interface from jwt-payload.interface.ts: the Identity embedded in a token. -/
structure JwtPayload where
  id : String
  email : String
  first_name : Option String
  last_name : Option String
  deriving DecidableEq

/-- UpdateUserDto: every field optional; absent fields are left unchanged by Prisma update. -/
structure UpdateUserDto where
  first_name : Option String
  last_name : Option String
  email : Option String
  deriving DecidableEq

/-- RegisterDto: email and password required, names optional. -/
structure RegisterDto where
  email : String
  password : String
  first_name : Option String
  last_name : Option String
  deriving DecidableEq

/-- Shape of a user record after the service destructures away the password field. -/
structure UserNoPassword where
  id : String
  email : String
  first_name : Option String
  last_name : Option String
  deriving DecidableEq

/-- Dropping the password field, as in the spread `const (password, ...userWithoutPassword) = user`. -/
def stripPassword (u : User) : UserNoPassword :=
  { id := u.id, email := u.email, first_name := u.first_name, last_name := u.last_name }

/-- Operation tags of the audit taxonomy. -/
inductive OpTag
  | login
  | register
  | list
  | update
  | delete
  | view
  deriving DecidableEq

/-- Observable events emitted while a service method runs, in chronological order:
a completed record-store access, a durable audit log line, a lower-fidelity
stderr line (used when the durable sink fails), and a NotificationHub broadcast. -/
inductive Event
  | storeOp (tag : OpTag)
  | logLine (msg : String)
  | stderrLine (msg : String)
  | broadcast (msg : String)
  deriving DecidableEq

/-- An HttpException as thrown by the service: status code plus message. -/
structure HttpError where
  status : Nat
  message : String
  deriving DecidableEq

/-- Distinguishable failures of the Prisma store: P2002 (unique key violated),
P2025 (required record not found), or any other error with a message. -/
inductive StoreError
  | P2002
  | P2025
  | other (msg : String)
  deriving DecidableEq

/-- Message carried by a store error, as read from `error.message` in the catch blocks. -/
def storeErrorMessage : StoreError → String
  | .P2002 => "Unique constraint failed on the constraint"
  | .P2025 => "Record to delete does not exist."
  | .other m => m

/-- Prisma `user.findUnique` by id over the store, modelled as a list of records. -/
def findUniqueById (s : List User) (id : String) : Option User :=
  s.find? (fun u => u.id == id)

/-- Prisma `user.findUnique` by the unique email key. -/
def findUniqueByEmail (s : List User) (email : String) : Option User :=
  s.find? (fun u => u.email == email)

/-- Prisma `user.delete`: removes and returns the record, or raises P2025 when absent. -/
def prismaDelete (s : List User) (id : String) : Except StoreError (User × List User) :=
  match s.find? (fun u => u.id == id) with
  | none => .error .P2025
  | some u => .ok (u, s.filter (fun v => v.id != id))

/-- Merging one optional dto field into the stored optional field: Prisma only
writes fields that are present in `data`. -/
def updField (newVal old : Option String) : Option String :=
  match newVal with
  | some v => some v
  | none => old

/-- Applying an UpdateUserDto to a stored record. -/
def applyUpdate (u : User) (dto : UpdateUserDto) : User :=
  { u with
    first_name := updField dto.first_name u.first_name
    last_name := updField dto.last_name u.last_name
    email := dto.email.getD u.email }

/-- Prisma `user.update`: rewrites the matching record, or raises P2025 when absent. -/
def prismaUpdate (s : List User) (id : String) (dto : UpdateUserDto) :
    Except StoreError (User × List User) :=
  match s.find? (fun u => u.id == id) with
  | none => .error .P2025
  | some u =>
    let u2 := applyUpdate u dto
    .ok (u2, s.map (fun v => if v.id == id then u2 else v))

/-- Prisma `user.create`: raises P2002 when the unique email key already exists,
otherwise appends the new record. -/
def prismaCreate (s : List User) (u : User) : Except StoreError (User × List User) :=
  if (findUniqueByEmail s u.email).isSome then .error .P2002
  else .ok (u, s ++ [u])

/-- Modelled external collaborator: bcrypt.hash with a fixed salt round, kept
abstract as an injective tagging of the plaintext. -/
def bcryptHash (password : String) : String :=
  "bcrypt$" ++ password

/-- Modelled external collaborator: bcrypt.compare succeeds exactly when the
stored hash is the hash of the presented password. -/
def bcryptCompare (password hash : String) : Bool :=
  hash == bcryptHash password

/-- JavaScript `x || null` used on the optional name fields at registration:
an empty string is coerced to null. -/
def jsOrNull (o : Option String) : Option String :=
  match o with
  | some v => if v = "" then none else some v
  | none => none

/-- Modelled from the spec: `LogNotifyHelper.logOperation`
(src/common/utils/log-notify.helper is not under src/). Per spec section 4.3 it
appends a structured line to the durable log sink and forwards the same summary
to NotificationHub for broadcast; a log-write failure is caught and itself
logged at lower fidelity (process stderr) rather than propagated, so the helper
never raises. `sinkFails` says whether the durable sink fails on this call. -/
def logOperation (sinkFails : Bool) (msg : String) : List Event :=
  if sinkFails then [.stderrLine msg, .broadcast msg]
  else [.logLine msg, .broadcast msg]

/-- Modelled external collaborator: the raw winston `logger.info` call used by
getProfile; winston transports contain their own failures, so the call never
raises; a failing sink degrades to stderr. No broadcast is involved. -/
def logInfo (sinkFails : Bool) (msg : String) : List Event :=
  if sinkFails then [.stderrLine msg] else [.logLine msg]

/-- Outcome of one service call: the thrown-or-returned result, the record
store left behind, and the chronological event trace. -/
structure OpResult (α : Type) where
  result : Except HttpError α
  store : List User
  trace : List Event

/-! Service methods of `UsersService`, embedded with their event traces.
Statement order inside each definition follows the TypeScript source. -/

/-- UsersService.listAllUsers: `findMany`, then one `logOperation` naming the
requester and the user count, then return the raw records (password included).
The catch branch is unreachable here because `findMany` and the audit helper
never raise. -/
def listAllUsers (s : List User) (req : JwtPayload) (sinkFails : Bool) :
    OpResult (List User) :=
  let users := s
  let msg := "El usuario " ++ req.email ++ " ha realizado la operación de listar "
      ++ toString users.length ++ " usuarios"
  { result := .ok users, store := s,
    trace := .storeOp .list :: logOperation sinkFails msg }

/-- UsersService.deleteUser: the audit `logOperation` runs FIRST, then
`prisma.user.delete`; on a store error the catch rethrows with status 400
(HttpStatus.BAD_REQUEST) and the store error message. The in-source
`if (not user)` check is dead code because Prisma delete raises P2025 instead
of returning null. -/
def deleteUser (s : List User) (id : String) (req : JwtPayload) (sinkFails : Bool) :
    OpResult (String × User) :=
  let msg := "Usuario " ++ req.email
      ++ " ha realizado la operación la eliminación del usuario con ID " ++ id
  let audit := logOperation sinkFails msg
  match prismaDelete s id with
  | .ok (user, s2) =>
    { result := .ok ("User deleted!", user), store := s2,
      trace := audit ++ [.storeOp .delete] }
  | .error e =>
    { result := .error ⟨400, storeErrorMessage e⟩, store := s, trace := audit }

/-- UsersService.updateUser: `prisma.user.update` first, then `logOperation`,
then return the updated record without its password; a store error is
rethrown by the catch with status 400. -/
def updateUser (s : List User) (id : String) (dto : UpdateUserDto) (req : JwtPayload)
    (sinkFails : Bool) : OpResult (String × UserNoPassword) :=
  match prismaUpdate s id dto with
  | .ok (user, s2) =>
    let msg := "Usuario " ++ req.email
        ++ " ha realizado la operación de actualización del usuario con ID " ++ id
    { result := .ok ("User updated!", stripPassword user), store := s2,
      trace := .storeOp .update :: logOperation sinkFails msg }
  | .error e =>
    { result := .error ⟨400, storeErrorMessage e⟩, store := s, trace := [] }

/-- UsersService.getProfile: `findUnique` by the payload id; when absent, the
inner HttpException (status 400, message unchanged) is rethrown by the catch;
when found, a plain `logger.info` line is written (no broadcast — the view
operation bypasses the LogNotifyHelper) and the record is returned without
its password. -/
def getProfile (s : List User) (userPayload : JwtPayload) (sinkFails : Bool) :
    OpResult UserNoPassword :=
  match findUniqueById s userPayload.id with
  | none =>
    { result := .error ⟨400, "This user does not exist"⟩, store := s,
      trace := [.storeOp .view] }
  | some user =>
    let msg := "Usuario " ++ user.email ++ " ha realizado la operación de ver su perfil"
    { result := .ok (stripPassword user), store := s,
      trace := .storeOp .view :: logInfo sinkFails msg }

/-- UsersService.loginUser: `findUnique` by email, bcrypt compare, `setTokens`
(cookie side effect, modelled separately by `issueAccessToken`), then one
`logOperation`. Unknown email and wrong password both rethrow with status 400
but distinct messages. -/
def loginUser (s : List User) (authEmail authPassword : String) (sinkFails : Bool) :
    OpResult (String × String) :=
  match findUniqueByEmail s authEmail with
  | none =>
    { result := .error ⟨400, "User or password invalid"⟩, store := s,
      trace := [.storeOp .login] }
  | some user =>
    if bcryptCompare authPassword user.password then
      let msg := "Usuario " ++ authEmail ++ " ha realizado la operación de login"
      { result := .ok ("Successful login!", user.email), store := s,
        trace := .storeOp .login :: logOperation sinkFails msg }
    else
      { result := .error ⟨400, "Incorrect password"⟩, store := s,
        trace := [.storeOp .login] }

/-- The catch block of registerUser: Prisma P2002 becomes HTTP 409 Conflict
with a fixed message; any other error becomes 500 with an
Internal-server-error message (no HttpException is thrown inside the try, so
the HttpException pass-through branch is unreachable). -/
def registerCatch : StoreError → HttpError
  | .P2002 => ⟨409, "The email is already registered"⟩
  | e => ⟨500, "Internal server error " ++ storeErrorMessage e⟩

/-- UsersService.registerUser: hash the password, `prisma.user.create` (names
coerced through JavaScript or-null), `setTokens`, one `logOperation`, return
the new record without the password. Failures go through `registerCatch`. -/
def registerUser (s : List User) (dto : RegisterDto) (newId : String) (sinkFails : Bool) :
    OpResult (String × UserNoPassword) :=
  let hashedPassword := bcryptHash dto.password
  let newUser : User :=
    { id := newId, email := dto.email, password := hashedPassword,
      first_name := jsOrNull dto.first_name, last_name := jsOrNull dto.last_name }
  match prismaCreate s newUser with
  | .ok (user, s2) =>
    let msg := "Usuario " ++ dto.email ++ " ha realizado la operación de registro"
    { result := .ok ("Successful register!", stripPassword user), store := s2,
      trace := .storeOp .register :: logOperation sinkFails msg }
  | .error e =>
    { result := .error (registerCatch e), store := s, trace := [] }

/-! Tokens and the guard. -/

/-- Access token lifetime: JwtModule.register signOptions expiresIn 15m. -/
def accessTokenLifetime : Nat := 15 * 60

/-- A signed JWT: the Identity payload, the signature (modelled as the secret
that produced it), issuance time and expiry, times in seconds. -/
structure SignedToken where
  payload : JwtPayload
  sig : String
  iat : Nat
  exp : Nat
  deriving DecidableEq

/-- Modelled from the spec: `setTokens` (src/common/utils/set-tokens is not
under src/) serializes the Identity verbatim into the access token payload,
signs it with the process-wide JWT_SECRET, and sets expiry to issuance plus
15 minutes as configured in UsersModule. -/
def issueAccessToken (identity : JwtPayload) (secret : String) (now : Nat) : SignedToken :=
  { payload := identity, sig := secret, iat := now, exp := now + accessTokenLifetime }

/-- Failure kinds of token verification. -/
inductive VerifyError
  | invalidToken
  | expiredToken
  deriving DecidableEq

/-- Modelled from the spec: `jwtService.verifyAsync` (the JWT library, external
to src/): checks the signature against the process secret, then expiry
(ignoreExpiration false; fails when now is past expires_at), then yields the
embedded payload. -/
def verify (tok : SignedToken) (secret : String) (now : Nat) :
    Except VerifyError JwtPayload :=
  if tok.sig ≠ secret then .error .invalidToken
  else if tok.exp < now then .error .expiredToken
  else .ok tok.payload

/-- Whether a verification result is a failure. -/
def verifyFailed (r : Except VerifyError JwtPayload) : Bool :=
  match r with
  | .error _ => true
  | .ok _ => false

/-- Outcome of AuthGuard.canActivate: either the request proceeds with the
payload attached as request.user, or an UnauthorizedException (HTTP 401)
carrying a message is thrown. -/
inductive GuardOutcome
  | allowed (user : JwtPayload)
  | unauthorized (msg : String)
  deriving DecidableEq

/-- AuthGuard.canActivate: read the access_token cookie; absent cookie throws
UnauthorizedException with message Access token not found; a cookie failing
`verifyAsync` throws UnauthorizedException with message Invalid or expired
token; a verified cookie attaches the payload and lets the request through. -/
def canActivate (cookieToken : Option SignedToken) (secret : String) (now : Nat) :
    GuardOutcome :=
  match cookieToken with
  | none => .unauthorized "Access token not found"
  | some token =>
    match verify token secret now with
    | .ok payload => .allowed payload
    | .error _ => .unauthorized "Invalid or expired token"

/-- HTTP status observable from a guard outcome: 401 on the thrown
UnauthorizedException, 200 (pass-through) otherwise. -/
def outcomeStatus : GuardOutcome → Nat
  | .allowed _ => 200
  | .unauthorized _ => 401

/-- Message observable from a guard denial. -/
def outcomeMessage : GuardOutcome → Option String
  | .allowed _ => none
  | .unauthorized m => some m

/-- The guard decision as seen by a guarded route: UseGuards(AuthGuard) runs
before any handler. AuthGuard's constructor injects only JwtService — never
PrismaService — so the record-store state at the moment of the request (the
`store` argument here) is not consulted by the body. -/
def guardedDecision (store : List User) (cookieToken : Option SignedToken)
    (secret : String) (now : Nat) : GuardOutcome :=
  canActivate cookieToken secret now

/-! Logout and cookies. -/

/-- The two authentication cookies of a response or request. -/
structure CookieJar where
  access_token : Option String
  refresh_token : Option String
  deriving DecidableEq

/-- Express res.clearCookie by cookie name. -/
def clearCookie (jar : CookieJar) (name : String) : CookieJar :=
  if name = "access_token" then { jar with access_token := none }
  else if name = "refresh_token" then { jar with refresh_token := none }
  else jar

/-- Body and status of the logout response. -/
structure LogoutResponse where
  status : Nat
  body : String
  deriving DecidableEq

/-- UsersController.logout: clear both cookies unconditionally, then respond
200 with a fixed JSON message. -/
def logout (jar : CookieJar) : LogoutResponse × CookieJar :=
  let jar1 := clearCookie jar "access_token"
  let jar2 := clearCookie jar1 "refresh_token"
  (⟨200, "Logout successful"⟩, jar2)

/-! Trace observations. -/

/-- Whether an event is a NotificationHub broadcast. -/
def isBroadcast : Event → Bool
  | .broadcast _ => true
  | _ => false

/-- Number of broadcasts in a trace. -/
def countBroadcasts (trace : List Event) : Nat :=
  (trace.filter isBroadcast).length

/-- Scanning a trace left to right: every broadcast must be preceded by some
completed store operation (`seen` records whether one has occurred yet). This
is the claimed broadcast-after-commit ordering. -/
def broadcastsAfterCommit : List Event → Bool → Bool
  | [], _ => true
  | .broadcast _ :: rest, seen => seen && broadcastsAfterCommit rest seen
  | .storeOp _ :: rest, _ => broadcastsAfterCommit rest true
  | _ :: rest, seen => broadcastsAfterCommit rest seen

/-- Whether a service call succeeded. -/
def succeeded {α : Type} (r : OpResult α) : Bool :=
  match r.result with
  | .ok _ => true
  | .error _ => false

/-! Concrete sample data used by witnesses and counterexamples. -/

/-- Sample authenticated payload. -/
def samplePayload : JwtPayload :=
  { id := "u1", email := "a@x.com", first_name := none, last_name := none }

/-- Sample stored user whose password hash matches the plaintext Passw0rd. -/
def sampleUser : User :=
  { id := "u1", email := "a@x.com", password := bcryptHash "Passw0rd",
    first_name := none, last_name := none }

/-- Sample one-user store. -/
def sampleStore : List User := [sampleUser]

/-- Update dto leaving every field unchanged. -/
def emptyUpdate : UpdateUserDto :=
  { first_name := none, last_name := none, email := none }

/-- Sample registration dto with a fresh email. -/
def sampleRegister : RegisterDto :=
  { email := "b@x.com", password := "Str0ngPw", first_name := some "Ana",
    last_name := none }

/-- Sample registration dto whose email collides with the stored sample user. -/
def sampleDupRegister : RegisterDto :=
  { email := "a@x.com", password := "Str0ngPw", first_name := none, last_name := none }

/-- Sample token carrying a signature made with a different secret. -/
def sampleBadToken : SignedToken :=
  { payload := samplePayload, sig := "wrong", iat := 0, exp := accessTokenLifetime }

/-! Helper lemmas about traces. -/

/-- A logOperation block after a committed store operation respects the
broadcast-after-commit ordering. -/
lemma broadcastsAfterCommit_logOperation (sf : Bool) (m : String) :
    broadcastsAfterCommit (logOperation sf m) true = true := by
  cases sf <;> simp [logOperation, broadcastsAfterCommit]

/-- A logOperation block broadcasts exactly once. -/
lemma countBroadcasts_logOperation (sf : Bool) (m : String) :
    countBroadcasts (logOperation sf m) = 1 := by
  cases sf <;> simp [logOperation, countBroadcasts, isBroadcast]

/-! Claim theorems. -/

/-- C1 counterexample: a successful deleteUser call broadcasts BEFORE its
store delete commits — logOperation runs first in the source — so the claimed
broadcast-only-after-commit ordering fails on the delete operation. -/
theorem C1_counterexample :
    succeeded (deleteUser sampleStore "u1" samplePayload false) = true ∧
    broadcastsAfterCommit (deleteUser sampleStore "u1" samplePayload false).trace false
      = false := by
  constructor <;> rfl

/-- C1 (amended): for login, register, list and update, every broadcast in the
call trace is preceded by the already-completed store operation; deleteUser is
excluded because its audit broadcast precedes the store delete (and is emitted
even when the delete then fails). -/
theorem C1_broadcast_after_commit_except_delete :
    ∀ (s : List User) (req : JwtPayload) (sf : Bool) (email pw uid newId : String)
      (dto : UpdateUserDto) (rdto : RegisterDto),
      broadcastsAfterCommit (listAllUsers s req sf).trace false = true ∧
      broadcastsAfterCommit (loginUser s email pw sf).trace false = true ∧
      broadcastsAfterCommit (registerUser s rdto newId sf).trace false = true ∧
      broadcastsAfterCommit (updateUser s uid dto req sf).trace false = true := by
  intro s req sf email pw uid newId dto rdto
  refine ⟨?_, ?_, ?_, ?_⟩
  · simp [listAllUsers, broadcastsAfterCommit, broadcastsAfterCommit_logOperation]
  · unfold loginUser
    cases h : findUniqueByEmail s email with
    | none => simp [broadcastsAfterCommit]
    | some user =>
      cases hb : bcryptCompare pw user.password <;>
        simp [hb, broadcastsAfterCommit, broadcastsAfterCommit_logOperation]
  · unfold registerUser
    cases h : prismaCreate s
        { id := newId, email := rdto.email, password := bcryptHash rdto.password,
          first_name := jsOrNull rdto.first_name, last_name := jsOrNull rdto.last_name } with
    | ok p => simp [h, broadcastsAfterCommit, broadcastsAfterCommit_logOperation]
    | error e => simp [h, broadcastsAfterCommit]
  · unfold updateUser
    cases h : prismaUpdate s uid dto with
    | ok p => simp [h, broadcastsAfterCommit, broadcastsAfterCommit_logOperation]
    | error e => simp [h, broadcastsAfterCommit]

/-- C2: a successful getProfile (the view operation, logged through the raw
logger) triggers no NotificationHub broadcast, while every successful list,
login, register, update and delete call triggers exactly one broadcast. -/
theorem C2_broadcast_counts :
    ∀ (s : List User) (req p : JwtPayload) (sf : Bool) (email pw uid newId : String)
      (dto : UpdateUserDto) (rdto : RegisterDto),
      (succeeded (getProfile s p sf) = true →
        countBroadcasts (getProfile s p sf).trace = 0) ∧
      (succeeded (listAllUsers s req sf) = true →
        countBroadcasts (listAllUsers s req sf).trace = 1) ∧
      (succeeded (loginUser s email pw sf) = true →
        countBroadcasts (loginUser s email pw sf).trace = 1) ∧
      (succeeded (registerUser s rdto newId sf) = true →
        countBroadcasts (registerUser s rdto newId sf).trace = 1) ∧
      (succeeded (updateUser s uid dto req sf) = true →
        countBroadcasts (updateUser s uid dto req sf).trace = 1) ∧
      (succeeded (deleteUser s uid req sf) = true →
        countBroadcasts (deleteUser s uid req sf).trace = 1) := by
  intro s req p sf email pw uid newId dto rdto
  refine ⟨?_, ?_, ?_, ?_, ?_, ?_⟩
  · unfold getProfile
    cases h : findUniqueById s p.id with
    | none => simp [succeeded]
    | some user =>
      cases sf <;> simp [logInfo, succeeded, countBroadcasts, isBroadcast]
  · intro _
    cases sf <;> simp [listAllUsers, countBroadcasts, isBroadcast, logOperation]
  · unfold loginUser
    cases h : findUniqueByEmail s email with
    | none => simp [succeeded]
    | some user =>
      cases hb : bcryptCompare pw user.password <;> cases sf <;>
        simp [hb, succeeded, countBroadcasts, isBroadcast, logOperation]
  · unfold registerUser
    cases h : prismaCreate s
        { id := newId, email := rdto.email, password := bcryptHash rdto.password,
          first_name := jsOrNull rdto.first_name, last_name := jsOrNull rdto.last_name } with
    | ok pair =>
      cases sf <;> simp [h, succeeded, countBroadcasts, isBroadcast, logOperation]
    | error e => simp [h, succeeded]
  · unfold updateUser
    cases h : prismaUpdate s uid dto with
    | ok pair =>
      cases sf <;> simp [h, succeeded, countBroadcasts, isBroadcast, logOperation]
    | error e => simp [h, succeeded]
  · unfold deleteUser
    cases h : prismaDelete s uid with
    | ok pair =>
      cases sf <;> simp [h, succeeded, countBroadcasts, isBroadcast, logOperation]
    | error e => simp [h, succeeded]

/-- C2 witness: on the sample store, a profile view broadcasts zero times and
each of the five other operations, called successfully once, broadcasts once. -/
theorem C2_broadcast_counts_witness :
    countBroadcasts (getProfile sampleStore samplePayload false).trace = 0 ∧
    countBroadcasts (listAllUsers sampleStore samplePayload false).trace = 1 ∧
    countBroadcasts (loginUser sampleStore "a@x.com" "Passw0rd" false).trace = 1 ∧
    countBroadcasts (registerUser sampleStore sampleRegister "u9" false).trace = 1 ∧
    countBroadcasts (updateUser sampleStore "u1" emptyUpdate samplePayload false).trace = 1 ∧
    countBroadcasts (deleteUser sampleStore "u1" samplePayload false).trace = 1 :=
  have h := C2_broadcast_counts sampleStore samplePayload samplePayload false
    "a@x.com" "Passw0rd" "u1" "u9" emptyUpdate sampleRegister
  ⟨h.1 (by decide), h.2.1 (by decide), h.2.2.1 (by decide), h.2.2.2.1 (by decide),
    h.2.2.2.2.1 (by decide), h.2.2.2.2.2 (by decide)⟩

/-- C3 counterexample: the guard outcome for a missing cookie and the guard
outcome for a token failing verification are NOT identical — the two thrown
UnauthorizedExceptions carry different messages, so a client can tell a
missing token from an invalid one by the response body. -/
theorem C3_counterexample :
    canActivate none "secret" 0 ≠ canActivate (some sampleBadToken) "secret" 0 := by
  decide

/-- C3 (amended): a missing access_token cookie and a cookie failing
verification are both denied with an UnauthorizedException, observable as the
same HTTP 401 status, but the two denials carry distinct fixed messages
(Access token not found versus Invalid or expired token), so the response
bodies distinguish the cases. -/
theorem C3_unauthorized_same_status_distinct_messages :
    ∀ (secret : String) (now : Nat) (tok : SignedToken),
      outcomeStatus (canActivate none secret now) = 401 ∧
      (verifyFailed (verify tok secret now) = true →
        outcomeStatus (canActivate (some tok) secret now) = 401) ∧
      outcomeMessage (canActivate none secret now) = some "Access token not found" ∧
      (verifyFailed (verify tok secret now) = true →
        outcomeMessage (canActivate (some tok) secret now) =
          some "Invalid or expired token") := by
  intro secret now tok
  refine ⟨rfl, ?_, rfl, ?_⟩ <;>
  · intro h
    unfold canActivate
    cases hv : verify tok secret now with
    | ok payload => rw [hv] at h; simp [verifyFailed] at h
    | error e => simp [hv, outcomeStatus, outcomeMessage]

/-- C3 witness: the amended statement instantiated at a concrete wrong-secret
token at time zero. -/
theorem C3_unauthorized_witness :
    outcomeStatus (canActivate none "secret" 0) = 401 ∧
    outcomeStatus (canActivate (some sampleBadToken) "secret" 0) = 401 ∧
    outcomeMessage (canActivate (some sampleBadToken) "secret" 0) =
      some "Invalid or expired token" :=
  have h := C3_unauthorized_same_status_distinct_messages "secret" 0 sampleBadToken
  ⟨h.1, h.2.1 (by decide), h.2.2.2 (by decide)⟩

/-- C4: verifying the access token issued for an Identity with the issuing
secret returns that same Identity at any time strictly before issuance plus
15 minutes, and fails with the expiry-classified failure at any time strictly
after that instant. -/
theorem C4_token_roundtrip :
    ∀ (identity : JwtPayload) (secret : String) (iss t : Nat),
      (t < iss + accessTokenLifetime →
        verify (issueAccessToken identity secret iss) secret t = .ok identity) ∧
      (iss + accessTokenLifetime < t →
        verify (issueAccessToken identity secret iss) secret t = .error .expiredToken) := by
  intro identity secret iss t
  constructor <;> intro h
  · have hexp : ¬ (iss + accessTokenLifetime < t) := by omega
    simp [verify, issueAccessToken, hexp]
  · simp [verify, issueAccessToken, h]

/-- C4 witness: the sample identity issued at time 0 verifies unchanged at
time 10 and fails as expired at time 1000 (past the 900-second lifetime). -/
theorem C4_token_roundtrip_witness :
    verify (issueAccessToken samplePayload "secret" 0) "secret" 10 = .ok samplePayload ∧
    verify (issueAccessToken samplePayload "secret" 0) "secret" 1000 =
      .error .expiredToken :=
  ⟨(C4_token_roundtrip samplePayload "secret" 0 10).1 (by decide),
   (C4_token_roundtrip samplePayload "secret" 0 1000).2 (by decide)⟩

/-- C5: evaluating the code at absent-record inputs. On an empty store,
deleteUser, updateUser and getProfile all fail with HTTP status 400
(HttpStatus.BAD_REQUEST) — the same status the services use for every generic
failure — not with a distinct NotFound outcome, although the controller's own
Swagger annotations declare 404 User not found for these routes. -/
theorem C5_absent_record_yields_400 :
    (deleteUser [] "u1" samplePayload false).result =
      .error ⟨400, "Record to delete does not exist."⟩ ∧
    (updateUser [] "u1" emptyUpdate samplePayload false).result =
      .error ⟨400, "Record to delete does not exist."⟩ ∧
    (getProfile [] samplePayload false).result =
      .error ⟨400, "This user does not exist"⟩ := by
  refine ⟨rfl, rfl, rfl⟩

/-- C6: when the registration email already exists in the store (the store
signals the P2002 duplicate-unique-key outcome), registerUser fails with the
409 Conflict HttpException; and the registration catch maps a store failure to
status 409 exactly when that failure is P2002, so no other store failure
produces Conflict. -/
theorem C6_duplicate_email_conflict :
    ∀ (s : List User) (dto : RegisterDto) (newId : String) (sf : Bool),
      ((findUniqueByEmail s dto.email).isSome = true →
        (registerUser s dto newId sf).result =
          .error ⟨409, "The email is already registered"⟩) ∧
      (∀ e : StoreError, (registerCatch e).status = 409 ↔ e = .P2002) := by
  intro s dto newId sf
  constructor
  · intro h
    unfold registerUser prismaCreate
    simp [h, registerCatch]
  · intro e
    cases e <;> simp [registerCatch]

/-- C6 witness: registering the already-stored sample email returns the 409
Conflict error. -/
theorem C6_duplicate_email_conflict_witness :
    (registerUser sampleStore sampleDupRegister "u9" false).result =
      .error ⟨409, "The email is already registered"⟩ :=
  (C6_duplicate_email_conflict sampleStore sampleDupRegister "u9" false).1 (by decide)

/-- C7: the caller-visible result and the final record store of every
operation are identical whether the audit sink fails or succeeds — audit
failures are contained inside the logging helper and never surface. -/
theorem C7_audit_failure_contained :
    ∀ (s : List User) (req p : JwtPayload) (email pw uid newId : String)
      (dto : UpdateUserDto) (rdto : RegisterDto),
      ((listAllUsers s req true).result = (listAllUsers s req false).result ∧
        (listAllUsers s req true).store = (listAllUsers s req false).store) ∧
      ((getProfile s p true).result = (getProfile s p false).result ∧
        (getProfile s p true).store = (getProfile s p false).store) ∧
      ((loginUser s email pw true).result = (loginUser s email pw false).result ∧
        (loginUser s email pw true).store = (loginUser s email pw false).store) ∧
      ((registerUser s rdto newId true).result = (registerUser s rdto newId false).result ∧
        (registerUser s rdto newId true).store = (registerUser s rdto newId false).store) ∧
      ((updateUser s uid dto req true).result = (updateUser s uid dto req false).result ∧
        (updateUser s uid dto req true).store = (updateUser s uid dto req false).store) ∧
      ((deleteUser s uid req true).result = (deleteUser s uid req false).result ∧
        (deleteUser s uid req true).store = (deleteUser s uid req false).store) := by
  intro s req p email pw uid newId dto rdto
  refine ⟨⟨rfl, rfl⟩, ?_, ?_, ?_, ?_, ?_⟩
  · unfold getProfile
    cases h : findUniqueById s p.id <;> simp
  · unfold loginUser
    cases h : findUniqueByEmail s email with
    | none => simp
    | some user => cases hb : bcryptCompare pw user.password <;> simp [hb]
  · unfold registerUser
    cases h : prismaCreate s
        { id := newId, email := rdto.email, password := bcryptHash rdto.password,
          first_name := jsOrNull rdto.first_name, last_name := jsOrNull rdto.last_name } <;>
      simp [h]
  · unfold updateUser
    cases h : prismaUpdate s uid dto <;> simp [h]
  · unfold deleteUser
    cases h : prismaDelete s uid <;> simp [h]

/-- C8: the guard decision for a request is the same under any two
record-store states — the guard consults only the cookie, the secret and the
clock — and a token that still verifies is accepted even against a store from
which its user has been deleted. -/
theorem C8_guard_ignores_store :
    ∀ (s1 s2 : List User) (cookieToken : Option SignedToken) (secret : String) (now : Nat),
      guardedDecision s1 cookieToken secret now =
        guardedDecision s2 cookieToken secret now ∧
      (∀ (tok : SignedToken) (payload : JwtPayload),
        verify tok secret now = .ok payload →
          guardedDecision s1 (some tok) secret now = .allowed payload) := by
  intro s1 s2 c secret now
  refine ⟨rfl, ?_⟩
  intro tok payload h
  simp [guardedDecision, canActivate, h]

/-- C8 witness: a freshly issued, unexpired token is accepted against the
empty store (its user deleted) exactly as against the populated sample store. -/
theorem C8_guard_ignores_store_witness :
    guardedDecision [] (some (issueAccessToken samplePayload "secret" 0)) "secret" 10 =
      .allowed samplePayload :=
  (C8_guard_ignores_store [] sampleStore
      (some (issueAccessToken samplePayload "secret" 0)) "secret" 10).2
    (issueAccessToken samplePayload "secret" 0) samplePayload rfl

/-- C9: logout always responds 200 Logout successful and leaves both
authentication cookies cleared, whatever the incoming cookie state, and
running logout twice gives the same response and the same final cookie state
as running it once. -/
theorem C9_logout_idempotent :
    ∀ (jar : CookieJar),
      (logout jar).1 = ⟨200, "Logout successful"⟩ ∧
      (logout jar).2 = ⟨none, none⟩ ∧
      logout (logout jar).2 = logout jar := by
  intro jar
  refine ⟨rfl, ?_, ?_⟩ <;> simp [logout, clearCookie]

/-- C10: successful getProfile and updateUser calls return the record with
the password field removed (the UserNoPassword shape), while listAllUsers and
deleteUser return the stored record(s) unfiltered — full User values whose
password field is the stored hash. -/
theorem C10_password_filtering :
    ∀ (s : List User) (p req : JwtPayload) (uid : String) (dto : UpdateUserDto) (sf : Bool),
      (∀ u : User, findUniqueById s p.id = some u →
        (getProfile s p sf).result = .ok (stripPassword u)) ∧
      (∀ (u : User) (s2 : List User), prismaUpdate s uid dto = .ok (u, s2) →
        (updateUser s uid dto req sf).result = .ok ("User updated!", stripPassword u)) ∧
      (listAllUsers s req sf).result = .ok s ∧
      (∀ (u : User) (s2 : List User), prismaDelete s uid = .ok (u, s2) →
        (deleteUser s uid req sf).result = .ok ("User deleted!", u)) := by
  intro s p req uid dto sf
  refine ⟨?_, ?_, rfl, ?_⟩
  · intro u h
    simp [getProfile, h]
  · intro u s2 h
    simp [updateUser, h]
  · intro u s2 h
    simp [deleteUser, h]

/-- C10 witness: on the sample store, getProfile and updateUser return the
sample user with the password dropped, and deleteUser returns the full stored
record, hashed password included. -/
theorem C10_password_filtering_witness :
    (getProfile sampleStore samplePayload false).result = .ok (stripPassword sampleUser) ∧
    (updateUser sampleStore "u1" emptyUpdate samplePayload false).result =
      .ok ("User updated!", stripPassword sampleUser) ∧
    (deleteUser sampleStore "u1" samplePayload false).result =
      .ok ("User deleted!", sampleUser) :=
  have h := C10_password_filtering sampleStore samplePayload samplePayload "u1"
    emptyUpdate false
  ⟨h.1 sampleUser (by decide), h.2.1 sampleUser [sampleUser] rfl,
    h.2.2.2 sampleUser [] rfl⟩

end UsersAPI
